import Mathlib

/-!
Shallow embedding of the `eth_phy` crate of `dornerworks/zynqmp_hal`
(files `src/crates/eth_phy/{lib.rs, genphy.rs, dp83867.rs}`), together with
theorems settling the specification claims about PHY detection, capability
advertisement, auto-negotiation and link parsing.

Modelling conventions:
* 16-bit register values are `Nat`s; the `u16` return type of the bus trait
  is encoded by reducing reads modulo `65536`, and the wrapping `u16`
  left-shift by `% 65536` after the shift.
* The `PhyReadWrite` bus transport trait is a record of pure functions over
  an explicit state type `σ`: reads take the state (the trait method takes
  `&self`), writes return the successor state.
* `tock_registers` local-mirror operations are translated to their numeric
  meaning: `modify fv` is `(reg &&& (0xFFFF ^^^ fv.mask)) ||| fv.value`,
  `FieldValue` addition ORs masks and values, `matches_all fv` is
  `reg &&& mask = value`, `any_matching_bits_set fv` is `reg &&& mask ≠ 0`.
* Fallible Rust code returns `Except`; a `unwrap()` panic is modelled as
  `Option.none`.
* Stateful engine operations additionally return the list of bus writes
  they issued, as `(phy_addr, regnum, data)` triples.
-/

namespace ZynqmpHal

/-- `Speed` from `eth_phy/src/lib.rs`. -/
inductive Speed
  | s10
  | s100
  | s1000
deriving DecidableEq, Repr

/-- `Duplex` from `eth_phy/src/lib.rs`. -/
inductive Duplex
  | half
  | full
deriving DecidableEq, Repr

/-- `Supported` capability set from `eth_phy/src/lib.rs`. -/
structure Supported where
  base10_t_half : Bool := false
  base10_t_full : Bool := false
  base100_t_half : Bool := false
  base100_t_full : Bool := false
  base1000_t_half : Bool := false
  base1000_t_full : Bool := false
  autoneg : Bool := false
  tp : Bool := false
  aui : Bool := false
  mii : Bool := false
  fibre : Bool := false
  bnc : Bool := false
  base10000_t_full : Bool := false
  pause : Bool := false
  asym_pause : Bool := false
  base2500_x_full : Bool := false
  backplane : Bool := false
  base1000_kx_full : Bool := false
  base10000_kx4_full : Bool := false
  base10000_kr_full : Bool := false
  base10000_r_fec : Bool := false
  base1000_x_half : Bool := false
  base1000_x_full : Bool := false
deriving DecidableEq, Repr

/-- `PhyInterface` from `eth_phy/src/lib.rs`. -/
inductive PhyInterface
  | na
  | internal
  | mii
  | gmii
  | sgmii
  | tbi
  | revmii
  | rmii
  | revrmii
  | rgmii
  | rgmiiId
  | rgmiiRxid
  | rgmiiTxid
  | rtbi
  | smii
  | xgmii
  | xlgmii
  | moca
  | qsgmii
  | trgmii
deriving DecidableEq, Repr

/-- `PhyInterface::is_rgmii` from `eth_phy/src/lib.rs`. -/
def PhyInterface.isRgmii : PhyInterface → Bool
  | .rgmii | .rgmiiId | .rgmiiRxid | .rgmiiTxid => true
  | _ => false

/-- The `PhyReadWrite` bus-transport trait from `eth_phy/src/lib.rs`,
as a record of pure functions over an explicit transport state `σ`.
`phy_read s phy_addr regnum` returns the 16-bit value (reduced modulo
`65536` at the use sites, encoding the `u16` return type);
`phy_write s phy_addr regnum data` returns the successor state. -/
structure PhyBus (σ : Type) where
  phy_read : σ → Nat → Nat → Nat
  phy_write : σ → Nat → Nat → Nat → σ

/-- A bus write event: `(phy_addr, regnum, data)`. -/
abbrev WriteEvt := Nat × Nat × Nat

/-- `PHYREG_MASK` from `genphy.rs`. -/
def PHYREG_MASK : Nat := 0x1808

/-- `MII_MMD_CTRL_NOINCR` from `genphy.rs`. -/
def MII_MMD_CTRL_NOINCR : Nat := 0x4000

/-- Register numbers of the `Mii` enum from `genphy.rs`
(plus `PhyReg::DetectReg = 0x01`). -/
def Mii.Bmcr : Nat := 0x00
def Mii.Bmsr : Nat := 0x01
def Mii.Advertise : Nat := 0x04
def Mii.Lpa : Nat := 0x05
def Mii.Ctrl1000 : Nat := 0x09
def Mii.Stat1000 : Nat := 0x0a
def Mii.MmdCtrl : Nat := 0x0d
def Mii.MmdData : Nat := 0x0e
def Mii.EStatus : Nat := 0x0f

/-- `PhyReg::DetectReg` from `genphy.rs`. -/
def PhyReg.DetectReg : Nat := 0x01

/-- `tock_registers` `modify`: read-modify-write of a local 16-bit mirror
with a `FieldValue` of the given `mask` and `value`:
`(reg & !mask) | value` at `u16` width. -/
def modifyVal (reg mask value : Nat) : Nat :=
  (reg &&& (0xFFFF ^^^ mask)) ||| value

/-- The `GenPhy` engine handle from `genphy.rs`: the bus transport,
the resolved bus address and the capability set. -/
structure GenPhy (σ : Type) where
  device : PhyBus σ
  addr : Nat
  supported : Supported

namespace GenPhy

variable {σ : Type}

/-- `GenPhy::read`: one bus read at the engine's own address
(`u16` result encoded by `% 65536`). -/
def read (e : GenPhy σ) (s : σ) (regnum : Nat) : Nat :=
  e.device.phy_read s e.addr regnum % 65536

/-- `GenPhy::write`: one bus write at the engine's own address. -/
def write (e : GenPhy σ) (s : σ) (regnum data : Nat) : σ :=
  e.device.phy_write s e.addr regnum data

/-- `GenPhy::is_valid_phy_reg`: read the detect register (register 1) at
`phy_addr`; valid iff the value is not `0xFFFF` and has all bits of
`PHYREG_MASK = 0x1808` set. -/
def is_valid_phy_reg (e : GenPhy σ) (s : σ) (phy_addr : Nat) : Bool :=
  let phyreg := e.device.phy_read s phy_addr PhyReg.DetectReg % 65536
  phyreg ≠ 0xffff && (phyreg &&& PHYREG_MASK == PHYREG_MASK)

/-- The descending loop `for i in (0..32).rev()` of `GenPhy::detect`:
`scanDown p n` tries `n-1, n-2, …, 0` and returns the first hit. -/
def scanDown (p : Nat → Bool) : Nat → Option Nat
  | 0 => none
  | n + 1 => if p n then some n else scanDown p n

/-- `GenPhy::detect`: keep a valid caller-supplied address, otherwise scan
addresses 31 down to 0 and take the first valid one; error if none is. -/
def detect (e : GenPhy σ) (s : σ) (phy_addr : Nat) : Except String Nat :=
  if e.is_valid_phy_reg s phy_addr then
    .ok phy_addr
  else
    match scanDown (fun i => e.is_valid_phy_reg s i) 32 with
    | some i => .ok i
    | none => .error "No valid reg found"

/-- `GenPhy::new`: build the handle and overwrite `addr` with
`detect(addr).unwrap()`.  The `unwrap` panic on detection failure is
modelled as `none`. -/
def new (addr : Nat) (device : PhyBus σ) (s : σ) (supported : Supported) :
    Option (GenPhy σ) :=
  let gp : GenPhy σ := ⟨device, addr, supported⟩
  match gp.detect s addr with
  | .ok a => some { gp with addr := a }
  | .error _ => none

/-- The combined advertisement `FieldValue` mask built by
`GenPhy::config_advert` (bits HALF10, FULL10, HALF100, FULL100,
PAUSE_CAP, PAUSE_ASYM). -/
def advModMask : Nat := 0xDE0

/-- The combined advertisement `FieldValue` value built by
`GenPhy::config_advert` from the capability set.  `FieldValue` addition in
`tock_registers` ORs the component values, so capabilities that reuse a
field (the 1000BASE-X flags reuse the 10 Mbps bits) OR into it. -/
def advModValue (sup : Supported) : Nat :=
  (if sup.base10_t_half then 0x20 else 0) |||
  (if sup.base10_t_full then 0x40 else 0) |||
  (if sup.base100_t_half then 0x80 else 0) |||
  (if sup.base100_t_full then 0x100 else 0) |||
  (if sup.pause then 0x400 else 0) |||
  (if sup.asym_pause then 0x800 else 0) |||
  (if sup.base1000_x_half then 0x40 else 0) |||
  (if sup.base1000_x_full then 0x20 else 0)

/-- The advertisement value composed by `GenPhy::config_advert` on the
local mirror: `adv.reg().modify(adv_mod)`. -/
def advCompose (sup : Supported) (init : Nat) : Nat :=
  modifyVal init advModMask (advModValue sup)

/-- The 1000BASE-T control value composed by `GenPhy::config_advert`:
clear HALF (bit 8) and FULL (bit 9), then conditionally set them from the
gigabit capabilities. -/
def ctrl1000Compose (sup : Supported) (init : Nat) : Nat :=
  let t0 := modifyVal init 0x300 0
  if sup.base1000_t_half || sup.base1000_t_full then
    let a := if sup.base1000_t_half then modifyVal t0 0x100 0x100 else t0
    if sup.base1000_t_full then modifyVal a 0x200 0x200 else a
  else t0

/-- `GenPhy::config_advert`: compose and conditionally write the
advertisement register, require `Bmsr::ESTATEN`, compose and conditionally
write the 1000BASE-T control register.  Returns the `changed` flag (or the
error), the final transport state, and the list of bus writes issued. -/
def config_advert (e : GenPhy σ) (s : σ) :
    Except String Bool × σ × List WriteEvt :=
  let init_adv := e.read s Mii.Advertise
  let new_adv := advCompose e.supported init_adv
  let step1 : Bool × σ × List WriteEvt :=
    if new_adv ≠ init_adv then
      (true, e.write s Mii.Advertise new_adv, [(e.addr, Mii.Advertise, new_adv)])
    else
      (false, s, [])
  let changed1 := step1.1
  let s1 := step1.2.1
  let log1 := step1.2.2
  let bmsr := e.read s1 Mii.Bmsr
  if bmsr &&& 0x100 = 0 then
    (.error "Bad BMSR Setting", s1, log1)
  else
    let init_base_ctrl := e.read s1 Mii.Ctrl1000
    let new_base_ctrl := ctrl1000Compose e.supported init_base_ctrl
    if new_base_ctrl ≠ init_base_ctrl then
      (.ok true, e.write s1 Mii.Ctrl1000 new_base_ctrl,
        log1 ++ [(e.addr, Mii.Ctrl1000, new_base_ctrl)])
    else
      (.ok changed1, s1, log1)

/-- `GenPhy::restart_aneg`: read BMCR, set ANENABLE and ANRESTART, clear
ISOLATE, write it back. -/
def restart_aneg (e : GenPhy σ) (s : σ) : σ × List WriteEvt :=
  let bmcr := e.read s Mii.Bmcr
  let v := modifyVal bmcr 0x1600 0x1200
  (e.write s Mii.Bmcr v, [(e.addr, Mii.Bmcr, v)])

/-- `GenPhy::config_aneg`: run `config_advert`; if nothing changed, also
force a restart when BMCR has ISOLATE set or ANENABLE clear
(`matches_any(&[ISOLATE::SET, ANENABLE::CLEAR])`); restart when warranted. -/
def config_aneg (e : GenPhy σ) (s : σ) :
    Except String Unit × σ × List WriteEvt :=
  match e.config_advert s with
  | (.error msg, s1, log1) => (.error msg, s1, log1)
  | (.ok changed0, s1, log1) =>
    let changed :=
      if !changed0 then
        let bmcr := e.read s1 Mii.Bmcr
        (bmcr &&& 0x400 == 0x400) || (bmcr &&& 0x1000 == 0)
      else changed0
    if changed then
      let r := e.restart_aneg s1
      (.ok (), r.1, log1 ++ r.2)
    else
      (.ok (), s1, log1)

/-- `GenPhy::parse_link`: resolve `(Speed, Duplex)` from the status
registers, in the precedence order of the source (gigabit 1000BASE-T
status∩control first with early return, then advertisement ∩ partner,
then the extended-status fallback overriding the defaults). -/
def parse_link (e : GenPhy σ) (s : σ) : Speed × Duplex :=
  let gigabit : Option (Speed × Duplex) :=
    if e.supported.base1000_t_full || e.supported.base1000_t_half then
      let gblpa := e.read s Mii.Stat1000
      let val := gblpa &&& ((e.read s Mii.Ctrl1000 <<< 2) % 65536)
      if val &&& 0xC00 ≠ 0 then
        some (Speed.s1000, if val &&& 0x800 ≠ 0 then Duplex.full else Duplex.half)
      else none
    else none
  match gigabit with
  | some r => r
  | none =>
    let adv := e.read s Mii.Advertise &&& e.read s Mii.Lpa
    let sd : Speed × Duplex :=
      if adv &&& 0x180 ≠ 0 then
        (Speed.s100, if adv &&& 0x100 ≠ 0 then Duplex.full else Duplex.half)
      else if adv &&& 0x40 ≠ 0 then
        (Speed.s10, Duplex.full)
      else
        (Speed.s10, Duplex.half)
    let bmsr := e.read s Mii.Bmsr
    if bmsr &&& 0x101 = 0x100 then
      let est := e.read s Mii.EStatus
      if est &&& 0xF000 ≠ 0 then
        (Speed.s1000, if est &&& 0xA000 ≠ 0 then Duplex.full else sd.2)
      else sd
    else sd

/-- `GenPhy::phy_mmd_start_indirect`: the 3-step MMD setup
(write devad to MMD-control, target register to MMD-data,
devad | NOINCR to MMD-control). -/
def phy_mmd_start_indirect (e : GenPhy σ) (s : σ) (addr regnum : Nat) :
    σ × List WriteEvt :=
  let s1 := e.write s Mii.MmdCtrl addr
  let s2 := e.write s1 Mii.MmdData regnum
  let s3 := e.write s2 Mii.MmdCtrl (addr ||| MII_MMD_CTRL_NOINCR)
  (s3, [(e.addr, Mii.MmdCtrl, addr), (e.addr, Mii.MmdData, regnum),
        (e.addr, Mii.MmdCtrl, addr ||| MII_MMD_CTRL_NOINCR)])

/-- `GenPhy::read_mmd`: MMD setup, then one MMD-data read.
Returns the value, the state and the writes issued by the setup. -/
def read_mmd (e : GenPhy σ) (s : σ) (addr regnum : Nat) :
    Nat × σ × List WriteEvt :=
  let r := e.phy_mmd_start_indirect s addr regnum
  (e.read r.1 Mii.MmdData, r.1, r.2)

/-- `GenPhy::write_mmd`: MMD setup, then one MMD-data write. -/
def write_mmd (e : GenPhy σ) (s : σ) (addr regnum data : Nat) :
    σ × List WriteEvt :=
  let r := e.phy_mmd_start_indirect s addr regnum
  (e.write r.1 Mii.MmdData data, r.2 ++ [(e.addr, Mii.MmdData, data)])

end GenPhy

/-! ## DP83867 vendor configuration engine (`dp83867.rs`) -/

/-- `DP83867_DEVADDR` from `dp83867.rs`. -/
def DP83867_DEVADDR : Nat := 0x1f

/-- Register numbers of the `Dp83867Reg` enum from `dp83867.rs`. -/
def Dp83867Reg.PhyCtrl : Nat := 0x10
def Dp83867Reg.Cfg2 : Nat := 0x14
def Dp83867Reg.Biscr : Nat := 0x16
def Dp83867Reg.Ctrl : Nat := 0x1f
def Dp83867Reg.Cfg4 : Nat := 0x0031
def Dp83867Reg.RgmiiCtl : Nat := 0x0032
def Dp83867Reg.StrapSts1 : Nat := 0x006E
def Dp83867Reg.RgmiiDCtl : Nat := 0x0086
def Dp83867Reg.IoMuxCfg : Nat := 0x0170
def Dp83867Reg.SgmiiCtl : Nat := 0x00D3

/-- `PortMirroring` from `dp83867.rs`. -/
inductive PortMirroring
  | keep
  | enable
  | disable
deriving DecidableEq, Repr

/-- `DP83867Conf` from `dp83867.rs`. -/
structure DP83867Conf where
  rx_id_delay : Nat
  tx_id_delay : Nat
  fifo_depth : Nat
  io_impedance : Option Nat
  rxctrl_strap_quirk : Bool
  port_mirroring : PortMirroring
  set_clk_output : Bool
  clk_output_sel : Option Nat
  sgmii_ref_clk_en : Bool
  interface : PhyInterface

/-- The documented decoding of the 4-bit `RX_DELAY_CTRL` / `TX_DELAY_CTRL`
codes of the `RgmiiDCtl` register (`dp83867.rs`), in quarter-nanosecond
units (`1` = 0.25 ns, …, `16` = 4.00 ns).  Both fields carry the same
sixteen named values `Ns0_25 = 0b0000` through `Ns4_00 = 0b1111`. -/
def rgmiiDelayDecodeQuarterNs (code : Nat) : Option Nat :=
  match code with
  | 0b0000 => some 1
  | 0b0001 => some 2
  | 0b0010 => some 3
  | 0b0011 => some 4
  | 0b0100 => some 5
  | 0b0101 => some 6
  | 0b0110 => some 7
  | 0b0111 => some 8
  | 0b1000 => some 9
  | 0b1001 => some 10
  | 0b1010 => some 11
  | 0b1011 => some 12
  | 0b1100 => some 13
  | 0b1101 => some 14
  | 0b1110 => some 15
  | 0b1111 => some 16
  | _ => none

/-- Whether some 4-bit delay code decodes to the given quarter-ns value. -/
def rgmiiEncodableQuarterNs (q : Nat) : Bool :=
  (List.range 16).any (fun c => rgmiiDelayDecodeQuarterNs c == some q)

/-- The encoder induced by the delay-control table: the first 4-bit code
whose documented decoding is the given quarter-ns value. -/
def rgmiiDelayEncodeQuarterNs (q : Nat) : Option Nat :=
  (List.range 16).find? (fun c => rgmiiDelayDecodeQuarterNs c == some q)

/-- The DP83867 vendor engine `Phy` from `dp83867.rs`: a borrowed generic
engine plus the vendor configuration record. -/
structure Dp83867Phy (σ : Type) where
  genphy : GenPhy σ
  conf : DP83867Conf

namespace Dp83867Phy

variable {σ : Type}

/-- `Phy::rgmii_config` from `dp83867.rs` (RGMII branch of step 3). -/
def rgmii_config (p : Dp83867Phy σ) (s : σ) : σ × List WriteEvt :=
  let e := p.genphy
  -- PhyCtrl: TX_FIFO_DEPTH.val(fifo_depth) + FORCE_LINK_GOOD::CLEAR
  let phy_ctrl0 := e.read s Dp83867Reg.PhyCtrl
  let phy_ctrl1 := modifyVal phy_ctrl0 0xC400 ((p.conf.fifo_depth &&& 0x3) <<< 14)
  -- StrapSts1 (MMD read); if RESERVED (bit 11) set, clear SGMIIEN
  let strap := e.read_mmd s Dp83867Reg.StrapSts1 DP83867_DEVADDR
  let phy_ctrl2 :=
    if strap.1 &&& 0x800 ≠ 0 then modifyVal phy_ctrl1 0x800 0 else phy_ctrl1
  let s1 := e.write strap.2.1 Dp83867Reg.PhyCtrl phy_ctrl2
  let log1 := strap.2.2 ++ [(e.addr, Dp83867Reg.PhyCtrl, phy_ctrl2)]
  -- RgmiiCtl (MMD read-modify-write): clock-delay enables per sub-variant
  let rg := e.read_mmd s1 Dp83867Reg.RgmiiCtl DP83867_DEVADDR
  let delayBits : Nat :=
    match p.conf.interface with
    | .rgmiiId => 0x3
    | .rgmiiTxid => 0x2
    | .rgmiiRxid => 0x1
    | _ => 0x0
  let rgv := modifyVal rg.1 0x3 delayBits
  let w1 := e.write_mmd rg.2.1 Dp83867Reg.RgmiiCtl DP83867_DEVADDR rgv
  -- RgmiiDCtl (MMD write of a fresh mirror): RX/TX delay magnitudes
  let dv := ((p.conf.rx_id_delay &&& 0xF)) ||| ((p.conf.tx_id_delay &&& 0xF) <<< 4)
  let w2 := e.write_mmd w1.1 Dp83867Reg.RgmiiDCtl DP83867_DEVADDR dv
  (w2.1, log1 ++ rg.2.2 ++ w1.2 ++ w2.2)

/-- `Phy::sgmii_config` from `dp83867.rs` (SGMII branch of step 3). -/
def sgmii_config (p : Dp83867Phy σ) (s : σ) : σ × List WriteEvt :=
  let e := p.genphy
  let step0 : σ × List WriteEvt :=
    if p.conf.sgmii_ref_clk_en then
      e.write_mmd s Dp83867Reg.SgmiiCtl DP83867_DEVADDR 0x4000
    else (s, [])
  -- BMCR := ANENABLE + FULLDPLX + SPEED1000
  let s1 := e.write step0.1 Mii.Bmcr 0x1140
  let log1 := step0.2 ++ [(e.addr, Mii.Bmcr, 0x1140)]
  -- Cfg2 read-modify-write
  let cfg2 := e.read s1 Dp83867Reg.Cfg2
  let cfg2v := modifyVal cfg2 0x2DC0 0x29C0
  let s2 := e.write s1 Dp83867Reg.Cfg2 cfg2v
  let log2 := log1 ++ [(e.addr, Dp83867Reg.Cfg2, cfg2v)]
  -- RgmiiCtl := 0 (MMD write)
  let w1 := e.write_mmd s2 Dp83867Reg.RgmiiCtl DP83867_DEVADDR 0
  -- PhyCtrl := SGMIIEN + MDI_CROSSOVER::Auto + RX/TX_FIFO_DEPTH.val(fifo)
  let pcv := 0x800 ||| 0x40 ||| ((p.conf.fifo_depth &&& 0x3) <<< 12) |||
    ((p.conf.fifo_depth &&& 0x3) <<< 14)
  let s3 := e.write w1.1 Dp83867Reg.PhyCtrl pcv
  let log3 := log2 ++ w1.2 ++ [(e.addr, Dp83867Reg.PhyCtrl, pcv)]
  -- Biscr := 0
  let s4 := e.write s3 Dp83867Reg.Biscr 0
  (s4, log3 ++ [(e.addr, Dp83867Reg.Biscr, 0)])

/-- `Phy::config_port_mirroring` from `dp83867.rs` (step 5):
`Keep` performs no register access at all. -/
def config_port_mirroring (p : Dp83867Phy σ) (s : σ) : σ × List WriteEvt :=
  let e := p.genphy
  match p.conf.port_mirroring with
  | .keep => (s, [])
  | pm =>
    let v : Nat := match pm with
      | .enable => 0x1
      | _ => 0x0
    let r := e.read_mmd s Dp83867Reg.Cfg4 DP83867_DEVADDR
    let w := e.write_mmd r.2.1 Dp83867Reg.Cfg4 DP83867_DEVADDR (modifyVal r.1 0x1 v)
    (w.1, r.2.2 ++ w.2)

/-- Steps 1–6 of `Phy::config` from `dp83867.rs` (everything before the
final delegation to `GenPhy::config_aneg`). -/
def configPreAneg (p : Dp83867Phy σ) (s : σ) : σ × List WriteEvt :=
  let e := p.genphy
  -- Step 1: software restart via the vendor Ctrl register
  let ctrl := e.read s Dp83867Reg.Ctrl
  let s1 := e.write s Dp83867Reg.Ctrl (modifyVal ctrl 0x4000 0x4000)
  let log1 := [(e.addr, Dp83867Reg.Ctrl, modifyVal ctrl 0x4000 0x4000)]
  -- Step 2: rxctrl strap quirk workaround
  let step2 : σ × List WriteEvt :=
    if p.conf.rxctrl_strap_quirk then
      let r := e.read_mmd s1 Dp83867Reg.Cfg4 DP83867_DEVADDR
      let w := e.write_mmd r.2.1 Dp83867Reg.Cfg4 DP83867_DEVADDR (modifyVal r.1 0x80 0)
      (w.1, log1 ++ r.2.2 ++ w.2)
    else (s1, log1)
  -- Step 3: interface-mode branch
  let step3 : σ × List WriteEvt :=
    if p.conf.interface.isRgmii then
      let r := p.rgmii_config step2.1
      (r.1, step2.2 ++ r.2)
    else if p.conf.interface = PhyInterface.sgmii then
      let r := p.sgmii_config step2.1
      (r.1, step2.2 ++ r.2)
    else step2
  -- Step 4: optional I/O impedance
  let step4 : σ × List WriteEvt :=
    match p.conf.io_impedance with
    | some imp =>
      let r := e.read_mmd step3.1 Dp83867Reg.IoMuxCfg DP83867_DEVADDR
      let w := e.write_mmd r.2.1 Dp83867Reg.IoMuxCfg DP83867_DEVADDR
        (modifyVal r.1 0x1F (imp &&& 0x1F))
      (w.1, step3.2 ++ r.2.2 ++ w.2)
    | none => step3
  -- Step 5: port mirroring
  let step5 : σ × List WriteEvt :=
    let r := p.config_port_mirroring step4.1
    (r.1, step4.2 ++ r.2)
  -- Step 6: clock-output selection
  if p.conf.set_clk_output then
    let r := e.read_mmd step5.1 Dp83867Reg.IoMuxCfg DP83867_DEVADDR
    let v := match p.conf.clk_output_sel with
      | none => modifyVal r.1 0x40 0x40
      | some sel => modifyVal r.1 0x1F40 ((sel &&& 0x1F) <<< 8)
    let w := e.write_mmd r.2.1 Dp83867Reg.IoMuxCfg DP83867_DEVADDR v
    (w.1, step5.2 ++ r.2.2 ++ w.2)
  else step5

/-- `Phy::config` (the `SpecPhy::config` impl in `dp83867.rs`): steps 1–6,
then `self.genphy.config_aneg().unwrap()`.  The `unwrap` panic on a
`config_aneg` error is modelled as `none`. -/
def config (p : Dp83867Phy σ) (s : σ) : Option (σ × List WriteEvt) :=
  let pre := p.configPreAneg s
  match p.genphy.config_aneg pre.1 with
  | (.ok _, s2, log2) => some (s2, pre.2 ++ log2)
  | (.error _, _, _) => none

end Dp83867Phy

/-! ## Simulated transports used by the theorems and their witnesses -/

/-- A simulated register-bank transport: the state maps a register number
to its 16-bit contents; writes are retained (keyed by register number),
reads return the stored value.  The `u16` type of the `data` argument is
encoded by storing `data % 65536`. -/
def bankBus : PhyBus (Nat → Nat) where
  phy_read := fun s _ regnum => s regnum
  phy_write := fun s _ regnum data => fun x => if x = regnum then data % 65536 else s x

/-- A simulated bus on which every detect-register read returns `0xFFFF`
(no PHY responds anywhere). -/
def deadBus : PhyBus Unit where
  phy_read := fun _ _ _ => 0xFFFF
  phy_write := fun s _ _ _ => s

/-- A simulated bus on which only address 17 shows the detect pattern
(`0x1808`: not all-ones, all `PHYREG_MASK` bits set). -/
def bus17 : PhyBus Unit where
  phy_read := fun _ a _ => if a = 17 then 0x1808 else 0xFFFF
  phy_write := fun s _ _ _ => s

/-- `Supported::default()`: every capability flag false. -/
def supDefault : Supported := {}

/-- A simulated bus on which every read returns 0 in every state
(in particular, the BMSR never shows ESTATEN). -/
def busZero : PhyBus Unit where
  phy_read := fun _ _ _ => 0
  phy_write := fun s _ _ _ => s

/-- A capability set advertising only gigabit full duplex. -/
def supGig : Supported := { base1000_t_full := true }

/-- A capability set with only `base10_t_full` set (gigabit-X flags clear). -/
def supC10 : Supported := { base10_t_full := true }

/-- A capability set advertising 100 Mbps full and gigabit full. -/
def supAdv : Supported := { base100_t_full := true, base1000_t_full := true }

/-- Simulated bank: every register reads 0. -/
def bankZero : Nat → Nat := fun _ => 0

/-- Simulated bank where the 1000BASE-T status register shows 1000-full and
the 1000BASE-T control register advertises 1000-full (`0x200 <<< 2 = 0x800`),
while the 10/100 advertisement and partner registers are saturated. -/
def bankGig : Nat → Nat := fun r =>
  if r = Mii.Stat1000 then 0x800
  else if r = Mii.Ctrl1000 then 0x200
  else if r = Mii.Advertise then 0x1FF
  else if r = Mii.Lpa then 0x1FF
  else 0

/-- Simulated bank: advertisement ∩ partner shows 100-full, the BMSR shows
ESTATEN set with ERCAP clear, and the extended-status register has only
its 1000BASE-T half-duplex bit set. -/
def bankEstatus : Nat → Nat := fun r =>
  if r = Mii.Advertise then 0x100
  else if r = Mii.Lpa then 0x100
  else if r = Mii.Bmsr then 0x100
  else if r = Mii.EStatus then 0x1000
  else 0

/-- Simulated bank: advertisement ∩ partner shows 100-full and every other
register (the BMSR included) reads 0. -/
def bank100 : Nat → Nat := fun r =>
  if r = Mii.Advertise then 0x100
  else if r = Mii.Lpa then 0x100
  else 0

/-- Simulated bank where only the BMSR reads nonzero (ESTATEN set). -/
def bankEstaten : Nat → Nat := fun r => if r = Mii.Bmsr then 0x100 else 0

/-- A vendor configuration record selecting a plain MII interface with no
optional step enabled. -/
def confPlain : DP83867Conf :=
  ⟨0, 0, 0, none, false, PortMirroring.keep, false, none, false, PhyInterface.mii⟩

/-! ## Helper lemmas -/

namespace GenPhy

variable {σ : Type}

/-- The descending scan finds `m` when `m` holds, is below the bound, and
nothing strictly between `m` and the bound holds. -/
lemma scanDown_found {p : Nat → Bool} {m : Nat} (hpm : p m = true) :
    ∀ n, m < n → (∀ j, m < j → j < n → p j = false) → scanDown p n = some m := by
  intro n
  induction n with
  | zero => intro h; omega
  | succ k ih =>
    intro hm hmax
    by_cases hk : m = k
    · subst hk; simp [scanDown, hpm]
    · have hpk : p k = false := hmax k (by omega) (by omega)
      simp only [scanDown, hpk, Bool.false_eq_true, if_false]
      exact ih (by omega) (fun j hj hj2 => hmax j hj (by omega))

/-- The descending scan fails when nothing below the bound holds. -/
lemma scanDown_none {p : Nat → Bool} :
    ∀ n, (∀ j, j < n → p j = false) → scanDown p n = none := by
  intro n
  induction n with
  | zero => intro _; rfl
  | succ k ih =>
    intro h
    simp only [scanDown, h k (by omega), Bool.false_eq_true, if_false]
    exact ih (fun j hj => h j (by omega))

/-- If `x` has no bit of `m1` and `m2`'s bits are contained in `m1`
(`m2 &&& m1 = m2`), then `x` has no bit of `m2`. -/
lemma and_mask_subset {x m1 m2 : Nat} (hm : m2 &&& m1 = m2)
    (h : x &&& m1 = 0) : x &&& m2 = 0 := by
  calc x &&& m2 = x &&& (m1 &&& m2) := by rw [Nat.and_comm m1 m2, hm]
  _ = (x &&& m1) &&& m2 := (Nat.and_assoc x m1 m2).symm
  _ = 0 := by rw [h, Nat.zero_and]

/-- `.1` of `config_aneg` is `config_advert`'s error, or `ok ()`. -/
lemma config_aneg_first (e : GenPhy σ) (s : σ) :
    (e.config_aneg s).1 =
      match (e.config_advert s).1 with
      | .error m => .error m
      | .ok _ => .ok () := by
  unfold config_aneg
  rcases h : e.config_advert s with ⟨r, s1, l1⟩
  rcases r with m | c
  · simp
  · dsimp only
    split <;> split <;> simp

/-- The advertisement `FieldValue` value only occupies bits of the mask
`advModMask = 0xDE0` (its complement at 16 bits is `0xF21F`). -/
lemma advModValue_and_compl (sup : Supported) :
    advModValue sup &&& 0xF21F = 0 := by
  obtain ⟨b1, b2, b3, b4, _, _, _, _, _, _, _, _, _, b5, b6, _, _, _, _, _, _, b7, b8⟩ := sup
  cases b1 <;> cases b2 <;> cases b3 <;> cases b4 <;> cases b5 <;> cases b6 <;>
    cases b7 <;> cases b8 <;> simp [advModValue] <;> decide

/-- The advertisement `FieldValue` value is a 16-bit quantity. -/
lemma advModValue_lt (sup : Supported) : advModValue sup < 65536 := by
  obtain ⟨b1, b2, b3, b4, _, _, _, _, _, _, _, _, _, b5, b6, _, _, _, _, _, _, b7, b8⟩ := sup
  cases b1 <;> cases b2 <;> cases b3 <;> cases b4 <;> cases b5 <;> cases b6 <;>
    cases b7 <;> cases b8 <;> simp [advModValue]

/-- Composing the advertisement pattern is idempotent. -/
lemma advCompose_idem (sup : Supported) (x : Nat) :
    advCompose sup (advCompose sup x) = advCompose sup x := by
  have hc : (0xFFFF ^^^ advModMask : Nat) = 0xF21F := by decide
  simp only [advCompose, modifyVal, hc]
  rw [Nat.and_distrib_right, Nat.and_assoc,
    (by decide : (0xF21F &&& 0xF21F : Nat) = 0xF21F),
    advModValue_and_compl sup, Nat.or_zero]

/-- The composed advertisement pattern is a 16-bit quantity. -/
lemma advCompose_lt (sup : Supported) (x : Nat) : advCompose sup x < 65536 := by
  have hp : (2:Nat) ^ 16 = 65536 := by norm_num
  have h1 : x &&& (0xFFFF ^^^ advModMask) < 2 ^ 16 := by
    rw [hp]; exact lt_of_le_of_lt Nat.and_le_right (by decide)
  have h2 : advModValue sup < 2 ^ 16 := by rw [hp]; exact advModValue_lt sup
  have h3 := Nat.or_lt_two_pow h1 h2
  rw [hp] at h3
  simpa [advCompose, modifyVal] using h3

/-- Normal form of the composed 1000BASE-T control value. -/
lemma ctrl1000Compose_eq (sup : Supported) (x : Nat) :
    ctrl1000Compose sup x = (x &&& 0xFCFF) |||
      ((if sup.base1000_t_half then 0x100 else 0) |||
       (if sup.base1000_t_full then 0x200 else 0)) := by
  obtain ⟨_, _, _, _, g1, g2, _, _, _, _, _, _, _, _, _, _, _, _, _, _, _, _, _⟩ := sup
  cases g1 <;> cases g2 <;>
    simp [ctrl1000Compose, modifyVal, Nat.and_distrib_right, Nat.and_assoc, Nat.or_assoc,
      (by decide : (64767 &&& 65023 : Nat) = 64767),
      (by decide : (64767 &&& 65279 : Nat) = 64767),
      (by decide : (65279 &&& 65023 : Nat) = 64767),
      (by decide : (64767 &&& 64767 : Nat) = 64767),
      (by decide : (256 &&& 65023 : Nat) = 256),
      (by decide : (256 ||| 512 : Nat) = 768)]

/-- Composing the 1000BASE-T control value is idempotent. -/
lemma ctrl1000Compose_idem (sup : Supported) (x : Nat) :
    ctrl1000Compose sup (ctrl1000Compose sup x) = ctrl1000Compose sup x := by
  rw [ctrl1000Compose_eq, ctrl1000Compose_eq]
  rw [Nat.and_distrib_right, Nat.and_assoc,
    (by decide : (0xFCFF &&& 0xFCFF : Nat) = 0xFCFF)]
  have h2 : ((if sup.base1000_t_half then (0x100:Nat) else 0) |||
      (if sup.base1000_t_full then (0x200:Nat) else 0)) &&& 0xFCFF = 0 := by
    cases sup.base1000_t_half <;> cases sup.base1000_t_full <;> decide
  rw [h2, Nat.or_zero]

/-- The composed 1000BASE-T control value is a 16-bit quantity. -/
lemma ctrl1000Compose_lt (sup : Supported) (x : Nat) :
    ctrl1000Compose sup x < 65536 := by
  rw [ctrl1000Compose_eq]
  have hp : (2:Nat) ^ 16 = 65536 := by norm_num
  have h1 : x &&& 0xFCFF < 2 ^ 16 := by
    rw [hp]; exact lt_of_le_of_lt Nat.and_le_right (by decide)
  have h2 : ((if sup.base1000_t_half then (0x100:Nat) else 0) |||
      (if sup.base1000_t_full then (0x200:Nat) else 0)) < 2 ^ 16 := by
    rw [hp]; cases sup.base1000_t_half <;> cases sup.base1000_t_full <;> decide
  have h3 := Nat.or_lt_two_pow h1 h2
  rw [hp] at h3
  exact h3

end GenPhy

/-! ## Claim theorems -/

/-- C1: for every bus transport and caller-supplied address, detection
resolves the bus address as follows: a kept valid supplied address; a
descending scan taking the highest valid address otherwise (the conjuncts
characterise validity as "read of register 1 is not `0xFFFF` and has all
`0x1808` bits set", keeping, scanning, and the only-address-17 instance:
construction with any requested address below 32 resolves to 17). -/
theorem C1_detection_resolution {σ : Type} (bus : PhyBus σ) (s : σ)
    (sup : Supported) (addr : Nat) :
    (∀ a, ((⟨bus, addr, sup⟩ : GenPhy σ).is_valid_phy_reg s a = true) ↔
      (bus.phy_read s a PhyReg.DetectReg % 65536 ≠ 0xFFFF ∧
       bus.phy_read s a PhyReg.DetectReg % 65536 &&& PHYREG_MASK = PHYREG_MASK)) ∧
    ((⟨bus, addr, sup⟩ : GenPhy σ).is_valid_phy_reg s addr = true →
      GenPhy.new addr bus s sup = some ⟨bus, addr, sup⟩) ∧
    (∀ m : Nat,
      (⟨bus, addr, sup⟩ : GenPhy σ).is_valid_phy_reg s addr = false →
      m < 32 →
      (⟨bus, addr, sup⟩ : GenPhy σ).is_valid_phy_reg s m = true →
      (∀ j, m < j → j < 32 →
        (⟨bus, addr, sup⟩ : GenPhy σ).is_valid_phy_reg s j = false) →
      GenPhy.new addr bus s sup = some ⟨bus, m, sup⟩) ∧
    ((∀ a, a < 32 →
        (⟨bus, addr, sup⟩ : GenPhy σ).is_valid_phy_reg s a = (a == 17)) →
      addr < 32 →
      (GenPhy.new addr bus s sup).map GenPhy.addr = some 17) := by
  have hKeep : (⟨bus, addr, sup⟩ : GenPhy σ).is_valid_phy_reg s addr = true →
      GenPhy.new addr bus s sup = some ⟨bus, addr, sup⟩ := by
    intro h
    simp [GenPhy.new, GenPhy.detect, h]
  have hScan : ∀ m : Nat,
      (⟨bus, addr, sup⟩ : GenPhy σ).is_valid_phy_reg s addr = false →
      m < 32 →
      (⟨bus, addr, sup⟩ : GenPhy σ).is_valid_phy_reg s m = true →
      (∀ j, m < j → j < 32 →
        (⟨bus, addr, sup⟩ : GenPhy σ).is_valid_phy_reg s j = false) →
      GenPhy.new addr bus s sup = some ⟨bus, m, sup⟩ := by
    intro m h0 hm hpm hmax
    simp [GenPhy.new, GenPhy.detect, h0, GenPhy.scanDown_found hpm 32 hm hmax]
  refine ⟨?_, hKeep, hScan, ?_⟩
  · intro a
    simp [GenPhy.is_valid_phy_reg, Bool.and_eq_true, decide_eq_true_eq]
  · intro h17 haddr
    by_cases h : addr = 17
    · subst h
      rw [hKeep (by simpa using h17 17 haddr)]
      rfl
    · have h0 : (⟨bus, addr, sup⟩ : GenPhy σ).is_valid_phy_reg s addr = false := by
        rw [h17 addr haddr]
        simp [h]
      have hmax : ∀ j, 17 < j → j < 32 →
          (⟨bus, addr, sup⟩ : GenPhy σ).is_valid_phy_reg s j = false := by
        intro j hj hj2
        have hne : (j == 17) = false := by
          simp [Nat.ne_of_gt hj]
        rw [h17 j hj2, hne]
      rw [hScan 17 h0 (by omega) (by simpa using h17 17 (by omega)) hmax]
      rfl

/-- C1 witness: on the bus where only address 17 shows the detect pattern,
construction with requested addresses 5 and 17 both resolve to 17. -/
theorem C1_witness :
    (GenPhy.new 5 bus17 () supDefault).map GenPhy.addr = some 17 ∧
    (GenPhy.new 17 bus17 () supDefault).map GenPhy.addr = some 17 :=
  ⟨(C1_detection_resolution bus17 () supDefault 5).2.2.2 (by decide) (by decide),
   (C1_detection_resolution bus17 () supDefault 17).2.2.2 (by decide) (by decide)⟩

/-- C2 counterexample to the claim as stated: on a bus where no address
shows the detect pattern, `new` does not return a `NoPhyFound`-carrying
`Result` to its caller — the detection error exists only inside `detect`,
and `new` unwraps it, so construction panics (modelled `none`) instead of
returning an error value. -/
theorem C2_counterexample :
    GenPhy.new 0 deadBus () supDefault = none ∧
    GenPhy.detect (⟨deadBus, 0, supDefault⟩ : GenPhy Unit) () 0 =
      .error "No valid reg found" :=
  ⟨rfl, rfl⟩

/-- C2 (amended): if no address satisfies the detect pattern, the internal
`detect` returns the error `"No valid reg found"`, and `new` unwraps it
and panics — construction yields no engine and no error value. -/
theorem C2_detection_failure_panics {σ : Type} (bus : PhyBus σ) (s : σ)
    (sup : Supported) (addr : Nat)
    (h : ∀ a, (⟨bus, addr, sup⟩ : GenPhy σ).is_valid_phy_reg s a = false) :
    GenPhy.detect (⟨bus, addr, sup⟩ : GenPhy σ) s addr =
      .error "No valid reg found" ∧
    GenPhy.new addr bus s sup = none := by
  have hd : GenPhy.detect (⟨bus, addr, sup⟩ : GenPhy σ) s addr =
      .error "No valid reg found" := by
    simp [GenPhy.detect, h addr, GenPhy.scanDown_none 32 (fun j _ => h j)]
  exact ⟨hd, by simp [GenPhy.new, hd]⟩

/-- C2 witness: the dead bus discharges the no-valid-address hypothesis. -/
theorem C2_witness :
    GenPhy.detect (⟨deadBus, 5, supDefault⟩ : GenPhy Unit) () 5 =
      .error "No valid reg found" ∧
    GenPhy.new 5 deadBus () supDefault = none :=
  C2_detection_failure_panics deadBus () supDefault 5 (fun _ => rfl)

/-- C3: on every bus transport whose BMSR reads never have the ESTATEN
bit (bit 8) set, `config_advert` — and hence `config_aneg` — fails with
the capability-mismatch error, for every capability set. -/
theorem C3_capability_gate {σ : Type} (bus : PhyBus σ) (s : σ)
    (sup : Supported) (addr : Nat)
    (h : ∀ t : σ, bus.phy_read t addr Mii.Bmsr % 65536 &&& 0x100 = 0) :
    (GenPhy.config_advert ⟨bus, addr, sup⟩ s).1 = .error "Bad BMSR Setting" ∧
    (GenPhy.config_aneg ⟨bus, addr, sup⟩ s).1 = .error "Bad BMSR Setting" := by
  have h1 : (GenPhy.config_advert ⟨bus, addr, sup⟩ s).1 =
      .error "Bad BMSR Setting" := by
    simp [GenPhy.config_advert, GenPhy.read, h]
  refine ⟨h1, ?_⟩
  rw [GenPhy.config_aneg_first, h1]

/-- C3 witness: the all-zero bus never shows ESTATEN. -/
theorem C3_witness :
    (GenPhy.config_advert ⟨busZero, 3, supGig⟩ ()).1 =
      .error "Bad BMSR Setting" ∧
    (GenPhy.config_aneg ⟨busZero, 3, supGig⟩ ()).1 =
      .error "Bad BMSR Setting" :=
  C3_capability_gate busZero () supGig 3 (fun _ => by simp [busZero])

/-- C4: when gigabit is advertised and the 1000BASE-T status register ANDed
with the control register shifted left by 2 has bit 11 or bit 10 set,
`parse_link` resolves Speed 1000 with Duplex Full iff bit 11 is set, and
the result depends only on the 1000BASE-T status/control registers — any
transport agreeing on those two registers yields the same result,
regardless of the advertisement, partner, BMSR and extended-status
registers. -/
theorem C4_gigabit_precedence {σ : Type} (bus : PhyBus σ) (s : σ)
    (sup : Supported) (addr : Nat)
    (hgig : (sup.base1000_t_full || sup.base1000_t_half) = true)
    (hbit : (bus.phy_read s addr Mii.Stat1000 % 65536) &&&
        (((bus.phy_read s addr Mii.Ctrl1000 % 65536) <<< 2) % 65536) &&&
        0xC00 ≠ 0) :
    GenPhy.parse_link ⟨bus, addr, sup⟩ s =
      (Speed.s1000,
        if (bus.phy_read s addr Mii.Stat1000 % 65536) &&&
            (((bus.phy_read s addr Mii.Ctrl1000 % 65536) <<< 2) % 65536) &&&
            0x800 ≠ 0
          then Duplex.full else Duplex.half) ∧
    ∀ (bus2 : PhyBus σ) (s2 : σ),
      bus2.phy_read s2 addr Mii.Stat1000 = bus.phy_read s addr Mii.Stat1000 →
      bus2.phy_read s2 addr Mii.Ctrl1000 = bus.phy_read s addr Mii.Ctrl1000 →
      GenPhy.parse_link ⟨bus2, addr, sup⟩ s2 =
        GenPhy.parse_link ⟨bus, addr, sup⟩ s := by
  constructor
  · simp only [GenPhy.parse_link, GenPhy.read, hgig, if_true]
    rw [if_pos hbit]
  · intro bus2 s2 h10 h9
    simp only [GenPhy.parse_link, GenPhy.read, h10, h9, hgig, if_true]
    rw [if_pos hbit]

/-- C4 witness: gigabit-full intersection on the simulated bank resolves
to (1000, Full) although the 10/100 registers are saturated. -/
theorem C4_witness :
    GenPhy.parse_link ⟨bankBus, 3, supGig⟩ bankGig = (Speed.s1000, Duplex.full) := by
  rw [(C4_gigabit_precedence bankBus bankGig supGig 3 (by decide) (by decide)).1]
  decide

/-- C5 counterexample to the claim as stated: with gigabit unsupported and
advertisement ∩ partner showing 100-full, `parse_link` does not return
(100, Full) when the extended-status fallback fires (BMSR shows ESTATEN
set with ERCAP clear and the extended-status register has a 1000BASE-T/X
bit): the result is overridden to (1000, Full). -/
theorem C5_counterexample :
    (bankBus.phy_read bankEstatus 3 Mii.Advertise % 65536) &&&
      (bankBus.phy_read bankEstatus 3 Mii.Lpa % 65536) &&& 0x100 ≠ 0 ∧
    GenPhy.parse_link ⟨bankBus, 3, supDefault⟩ bankEstatus ≠
      (Speed.s100, Duplex.full) ∧
    GenPhy.parse_link ⟨bankBus, 3, supDefault⟩ bankEstatus =
      (Speed.s1000, Duplex.full) := by
  decide

/-- C5 (amended): with gigabit unsupported in the capability set, and
provided the extended-status fallback does not fire (the BMSR read does
not show ESTATEN-set-with-ERCAP-clear, or the extended-status register
has none of its four 1000BASE-T/X bits), `parse_link` resolves
(100, Full) when advertisement ∩ partner has the full-100 bit, (100, Half)
when it has only the half-100 bit, (10, Full) when neither 100 Mbps bit
but the full-10 bit is set, and (10, Half) absent any match. -/
theorem C5_100mbps_tiebreak {σ : Type} (bus : PhyBus σ) (s : σ)
    (sup : Supported) (addr : Nat)
    (hg1 : sup.base1000_t_half = false) (hg2 : sup.base1000_t_full = false)
    (hno : bus.phy_read s addr Mii.Bmsr % 65536 &&& 0x101 ≠ 0x100 ∨
      bus.phy_read s addr Mii.EStatus % 65536 &&& 0xF000 = 0) :
    ((bus.phy_read s addr Mii.Advertise % 65536) &&&
        (bus.phy_read s addr Mii.Lpa % 65536) &&& 0x100 ≠ 0 →
      GenPhy.parse_link ⟨bus, addr, sup⟩ s = (Speed.s100, Duplex.full)) ∧
    ((bus.phy_read s addr Mii.Advertise % 65536) &&&
        (bus.phy_read s addr Mii.Lpa % 65536) &&& 0x100 = 0 →
      (bus.phy_read s addr Mii.Advertise % 65536) &&&
        (bus.phy_read s addr Mii.Lpa % 65536) &&& 0x80 ≠ 0 →
      GenPhy.parse_link ⟨bus, addr, sup⟩ s = (Speed.s100, Duplex.half)) ∧
    ((bus.phy_read s addr Mii.Advertise % 65536) &&&
        (bus.phy_read s addr Mii.Lpa % 65536) &&& 0x180 = 0 →
      (bus.phy_read s addr Mii.Advertise % 65536) &&&
        (bus.phy_read s addr Mii.Lpa % 65536) &&& 0x40 ≠ 0 →
      GenPhy.parse_link ⟨bus, addr, sup⟩ s = (Speed.s10, Duplex.full)) ∧
    ((bus.phy_read s addr Mii.Advertise % 65536) &&&
        (bus.phy_read s addr Mii.Lpa % 65536) &&& 0x180 = 0 →
      (bus.phy_read s addr Mii.Advertise % 65536) &&&
        (bus.phy_read s addr Mii.Lpa % 65536) &&& 0x40 = 0 →
      GenPhy.parse_link ⟨bus, addr, sup⟩ s = (Speed.s10, Duplex.half)) := by
  have hgig : ¬ (sup.base1000_t_full || sup.base1000_t_half) = true := by
    simp [hg1, hg2]
  have hmain : GenPhy.parse_link ⟨bus, addr, sup⟩ s =
      (if (bus.phy_read s addr Mii.Advertise % 65536) &&&
          (bus.phy_read s addr Mii.Lpa % 65536) &&& 0x180 ≠ 0 then
        (Speed.s100,
          if (bus.phy_read s addr Mii.Advertise % 65536) &&&
              (bus.phy_read s addr Mii.Lpa % 65536) &&& 0x100 ≠ 0
            then Duplex.full else Duplex.half)
      else if (bus.phy_read s addr Mii.Advertise % 65536) &&&
          (bus.phy_read s addr Mii.Lpa % 65536) &&& 0x40 ≠ 0 then
        (Speed.s10, Duplex.full)
      else (Speed.s10, Duplex.half)) := by
    simp only [GenPhy.parse_link, GenPhy.read]
    rw [if_neg hgig]
    rcases hno with hno | hno
    · rw [if_neg hno]
    · by_cases hb : bus.phy_read s addr Mii.Bmsr % 65536 &&& 0x101 = 0x100
      · rw [if_pos hb, hno]
        simp
      · rw [if_neg hb]
  refine ⟨?_, ?_, ?_, ?_⟩
  · intro h100
    have h180 : (bus.phy_read s addr Mii.Advertise % 65536) &&&
        (bus.phy_read s addr Mii.Lpa % 65536) &&& 0x180 ≠ 0 :=
      fun hz => h100 (GenPhy.and_mask_subset (by decide) hz)
    rw [hmain, if_pos h180, if_pos h100]
  · intro h100 h80
    have h180 : (bus.phy_read s addr Mii.Advertise % 65536) &&&
        (bus.phy_read s addr Mii.Lpa % 65536) &&& 0x180 ≠ 0 :=
      fun hz => h80 (GenPhy.and_mask_subset (by decide) hz)
    rw [hmain, if_pos h180, if_neg (by simp [h100])]
  · intro h180 h40
    rw [hmain, if_neg (by simp [h180]), if_pos h40]
  · intro h180 h40
    rw [hmain, if_neg (by simp [h180]), if_neg (by simp [h40])]

/-- C5 witness: on the bank with advertisement ∩ partner = 100-full and an
all-zero BMSR, `parse_link` resolves (100, Full). -/
theorem C5_witness :
    GenPhy.parse_link ⟨bankBus, 3, supDefault⟩ bank100 =
      (Speed.s100, Duplex.full) :=
  (C5_100mbps_tiebreak bankBus bank100 supDefault 3 rfl rfl
    (Or.inl (by decide))).1 (by decide)

/-- C9 counterexample to the claim as stated: the extended-status override
does fire after a 100 Mbps resolution, but with only a half-duplex
extended-status bit set the claim's "Duplex=Full iff a full-duplex
extended-status bit is set" predicts Half, while the code keeps the
previously resolved Full duplex: the result is (1000, Full). -/
theorem C9_counterexample :
    GenPhy.parse_link ⟨bankBus, 3, supDefault⟩ bankEstatus =
      (Speed.s1000, Duplex.full) ∧
    bankBus.phy_read bankEstatus 3 Mii.EStatus % 65536 &&& 0xA000 = 0 ∧
    (bankBus.phy_read bankEstatus 3 Mii.Advertise % 65536) &&&
      (bankBus.phy_read bankEstatus 3 Mii.Lpa % 65536) &&& 0x180 ≠ 0 := by
  decide

/-- C9 (amended): whenever the gigabit early-return path is not taken, the
BMSR shows ESTATEN set with ERCAP clear, and the extended-status register
has any of its four 1000BASE-T/X bits set, the result is overridden to
Speed 1000 — with Duplex forced to Full when a full-duplex extended-status
bit is set and otherwise left at the previously resolved 10/100 duplex —
even if the advertisement ∩ partner step had already resolved Speed 100. -/
theorem C9_estatus_override {σ : Type} (bus : PhyBus σ) (s : σ)
    (sup : Supported) (addr : Nat)
    (hpath : (sup.base1000_t_full || sup.base1000_t_half) = false ∨
      (bus.phy_read s addr Mii.Stat1000 % 65536) &&&
        (((bus.phy_read s addr Mii.Ctrl1000 % 65536) <<< 2) % 65536) &&&
        0xC00 = 0)
    (hbmsr : bus.phy_read s addr Mii.Bmsr % 65536 &&& 0x101 = 0x100)
    (hest : bus.phy_read s addr Mii.EStatus % 65536 &&& 0xF000 ≠ 0) :
    GenPhy.parse_link ⟨bus, addr, sup⟩ s =
      (Speed.s1000,
        if bus.phy_read s addr Mii.EStatus % 65536 &&& 0xA000 ≠ 0 then
          Duplex.full
        else if (bus.phy_read s addr Mii.Advertise % 65536) &&&
            (bus.phy_read s addr Mii.Lpa % 65536) &&& 0x180 ≠ 0 then
          (if (bus.phy_read s addr Mii.Advertise % 65536) &&&
              (bus.phy_read s addr Mii.Lpa % 65536) &&& 0x100 ≠ 0
            then Duplex.full else Duplex.half)
        else if (bus.phy_read s addr Mii.Advertise % 65536) &&&
            (bus.phy_read s addr Mii.Lpa % 65536) &&& 0x40 ≠ 0 then
          Duplex.full
        else Duplex.half) := by
  have hsd : (if (bus.phy_read s addr Mii.Advertise % 65536) &&&
        (bus.phy_read s addr Mii.Lpa % 65536) &&& 0x180 ≠ 0 then
      (Speed.s100,
        if (bus.phy_read s addr Mii.Advertise % 65536) &&&
            (bus.phy_read s addr Mii.Lpa % 65536) &&& 0x100 ≠ 0
          then Duplex.full else Duplex.half)
    else if (bus.phy_read s addr Mii.Advertise % 65536) &&&
        (bus.phy_read s addr Mii.Lpa % 65536) &&& 0x40 ≠ 0 then
      (Speed.s10, Duplex.full)
    else (Speed.s10, Duplex.half)).2 =
      (if (bus.phy_read s addr Mii.Advertise % 65536) &&&
          (bus.phy_read s addr Mii.Lpa % 65536) &&& 0x180 ≠ 0 then
        (if (bus.phy_read s addr Mii.Advertise % 65536) &&&
            (bus.phy_read s addr Mii.Lpa % 65536) &&& 0x100 ≠ 0
          then Duplex.full else Duplex.half)
      else if (bus.phy_read s addr Mii.Advertise % 65536) &&&
          (bus.phy_read s addr Mii.Lpa % 65536) &&& 0x40 ≠ 0 then
        Duplex.full
      else Duplex.half) := by
    by_cases h1 : (bus.phy_read s addr Mii.Advertise % 65536) &&&
        (bus.phy_read s addr Mii.Lpa % 65536) &&& 0x180 ≠ 0
    · simp [h1]
    · by_cases h2 : (bus.phy_read s addr Mii.Advertise % 65536) &&&
          (bus.phy_read s addr Mii.Lpa % 65536) &&& 0x40 ≠ 0 <;>
        simp [h1, h2]
  simp only [GenPhy.parse_link, GenPhy.read]
  rcases hpath with hp | hp
  · rw [if_neg (by simp [hp]), if_pos hbmsr, if_pos hest, hsd]
  · by_cases hg : (sup.base1000_t_full || sup.base1000_t_half) = true
    · rw [if_pos hg, if_neg (by simp [hp]), if_pos hbmsr, if_pos hest, hsd]
    · rw [if_neg hg, if_pos hbmsr, if_pos hest, hsd]

/-- C9 witness: the amended override at the concrete extended-status bank
yields (1000, Full). -/
theorem C9_witness :
    GenPhy.parse_link ⟨bankBus, 3, supDefault⟩ bankEstatus =
      (Speed.s1000, Duplex.full) := by
  rw [C9_estatus_override bankBus bankEstatus supDefault 3 (Or.inl rfl)
    (by decide) (by decide)]
  decide

/-- C10 counterexample to the claim as stated: `FieldValue` addition ORs
values, so the later 1000BASE-X contribution does not overwrite the
10 Mbps one — with `base10_t_full` set and `base1000_x_half` clear the
composed FULL10 bit (bit 6) is set, though the claim says it should equal
`base1000_x_half` (false); and `base10_t_full` does influence the pattern
(it differs from the default capability set's). -/
theorem C10_counterexample :
    supC10.base1000_x_half = false ∧
    GenPhy.advCompose supC10 0 &&& 0x40 = 0x40 ∧
    GenPhy.advCompose supDefault 0 &&& 0x40 = 0 := by
  decide

/-- C10 (amended): in the composed advertisement pattern the 1000BASE-X
flags OR into the 10 Mbps fields rather than overwrite them: for every
capability set and initial register value, the final FULL10 bit (bit 6)
is set iff `base10_t_full` or `base1000_x_half` is set, and the final
HALF10 bit (bit 5) is set iff `base10_t_half` or `base1000_x_full` is. -/
theorem C10_advert_bit_reuse (sup : Supported) (init : Nat) :
    GenPhy.advCompose sup init &&& 0x40 =
      (if sup.base10_t_full || sup.base1000_x_half then 0x40 else 0) ∧
    GenPhy.advCompose sup init &&& 0x20 =
      (if sup.base10_t_half || sup.base1000_x_full then 0x20 else 0) := by
  have hc : (0xFFFF ^^^ GenPhy.advModMask : Nat) = 0xF21F := by decide
  obtain ⟨b1, b2, b3, b4, _, _, _, _, _, _, _, _, _, b5, b6, _, _, _, _, _, _, b7, b8⟩ := sup
  constructor <;>
  · simp only [GenPhy.advCompose, modifyVal, hc]
    rw [Nat.and_distrib_right, Nat.and_assoc]
    cases b1 <;> cases b2 <;> cases b3 <;> cases b4 <;> cases b5 <;> cases b6 <;>
      cases b7 <;> cases b8 <;>
      simp [GenPhy.advModValue,
        (by decide : (0xF21F &&& 0x40 : Nat) = 0),
        (by decide : (0xF21F &&& 0x20 : Nat) = 0)] <;>
      decide

/-- On the register bank, `config_advert` at a state whose advertisement
and 1000BASE-T control registers already hold their composed values (and
whose BMSR shows ESTATEN) reports `changed = false`, leaves the bank
unchanged and issues no bus write. -/
lemma config_advert_bank_fixed {sup : Supported} {addr : Nat} {t : Nat → Nat}
    (hA : GenPhy.advCompose sup (t Mii.Advertise % 65536) =
      t Mii.Advertise % 65536)
    (hB : t Mii.Bmsr % 65536 &&& 0x100 ≠ 0)
    (hC : GenPhy.ctrl1000Compose sup (t Mii.Ctrl1000 % 65536) =
      t Mii.Ctrl1000 % 65536) :
    GenPhy.config_advert ⟨bankBus, addr, sup⟩ t = (.ok false, t, []) := by
  simp only [GenPhy.config_advert, GenPhy.read, GenPhy.write, bankBus]
  rw [hA]
  simp only [if_neg (show ¬ (t Mii.Advertise % 65536 ≠ t Mii.Advertise % 65536) from by simp)]
  rw [hC]
  simp only [if_neg hB,
    if_neg (show ¬ (t Mii.Ctrl1000 % 65536 ≠ t Mii.Ctrl1000 % 65536) from by simp)]

/-- On the register bank, a successful `config_advert` leaves a state whose
advertisement and 1000BASE-T control registers hold their composed values
and whose BMSR shows ESTATEN. -/
lemma config_advert_bank_post {sup : Supported} {addr : Nat} {s t : Nat → Nat}
    {b : Bool} {l : List WriteEvt}
    (h : GenPhy.config_advert ⟨bankBus, addr, sup⟩ s = (.ok b, t, l)) :
    GenPhy.advCompose sup (t Mii.Advertise % 65536) =
      t Mii.Advertise % 65536 ∧
    t Mii.Bmsr % 65536 &&& 0x100 ≠ 0 ∧
    GenPhy.ctrl1000Compose sup (t Mii.Ctrl1000 % 65536) =
      t Mii.Ctrl1000 % 65536 := by
  simp only [GenPhy.config_advert, GenPhy.read, GenPhy.write, bankBus,
    Mii.Advertise, Mii.Bmsr, Mii.Ctrl1000] at h ⊢
  by_cases h1 : GenPhy.advCompose sup (s 4 % 65536) ≠ s 4 % 65536
  · simp only [if_pos h1] at h
    simp at h
    by_cases h2 : s 1 % 65536 &&& 256 = 0
    · simp [h2] at h
    · rw [if_neg h2] at h
      by_cases h3 : GenPhy.ctrl1000Compose sup (s 9 % 65536) = s 9 % 65536
      · rw [if_pos h3] at h
        rw [Prod.mk.injEq, Prod.mk.injEq] at h
        obtain ⟨hb, ht, hl⟩ := h
        subst ht
        refine ⟨?_, ?_, ?_⟩
        · simp only []
          norm_num
          rw [Nat.mod_eq_of_lt (GenPhy.advCompose_lt sup _)]
          exact GenPhy.advCompose_idem sup _
        · simpa using h2
        · simpa using h3
      · rw [if_neg h3] at h
        rw [Prod.mk.injEq, Prod.mk.injEq] at h
        obtain ⟨hb, ht, hl⟩ := h
        subst ht
        refine ⟨?_, ?_, ?_⟩
        · simp only []
          norm_num
          rw [Nat.mod_eq_of_lt (GenPhy.advCompose_lt sup _)]
          exact GenPhy.advCompose_idem sup _
        · simpa using h2
        · simp only []
          norm_num
          rw [Nat.mod_eq_of_lt (GenPhy.ctrl1000Compose_lt sup _)]
          exact GenPhy.ctrl1000Compose_idem sup _
  · simp only [if_neg h1] at h
    simp at h
    by_cases h2 : s 1 % 65536 &&& 256 = 0
    · simp [h2] at h
    · rw [if_neg h2] at h
      by_cases h3 : GenPhy.ctrl1000Compose sup (s 9 % 65536) = s 9 % 65536
      · rw [if_pos h3] at h
        rw [Prod.mk.injEq, Prod.mk.injEq] at h
        obtain ⟨hb, ht, hl⟩ := h
        subst ht
        refine ⟨?_, ?_, ?_⟩
        · simpa using h1
        · simpa using h2
        · simpa using h3
      · rw [if_neg h3] at h
        rw [Prod.mk.injEq, Prod.mk.injEq] at h
        obtain ⟨hb, ht, hl⟩ := h
        subst ht
        refine ⟨?_, ?_, ?_⟩
        · simp only []
          norm_num
          simpa using h1
        · simpa using h2
        · simp only []
          norm_num
          rw [Nat.mod_eq_of_lt (GenPhy.ctrl1000Compose_lt sup _)]
          exact GenPhy.ctrl1000Compose_idem sup _

/-- C6: calling `config_advert` twice with an unchanged capability set
against a register bank that retains written values and is not otherwise
modified: whenever the first call succeeds, the second call reports
`changed = false`, leaves the bank unchanged, and issues no bus write
(its write log is empty — it only reads). -/
theorem C6_config_advert_idempotent {sup : Supported} {addr : Nat}
    {s t : Nat → Nat} {b : Bool} {l : List WriteEvt}
    (h : GenPhy.config_advert ⟨bankBus, addr, sup⟩ s = (.ok b, t, l)) :
    GenPhy.config_advert ⟨bankBus, addr, sup⟩ t = (.ok false, t, []) := by
  obtain ⟨hA, hB, hC⟩ := config_advert_bank_post h
  exact config_advert_bank_fixed hA hB hC

/-- C6 witness: a concrete first call (100-full + 1000-full capability set
against a bank whose BMSR shows ESTATEN) writes the advertisement and
1000BASE-T control registers; the second call changes nothing and issues
no write. -/
theorem C6_witness :
    GenPhy.config_advert ⟨bankBus, 3, supAdv⟩
        (GenPhy.config_advert ⟨bankBus, 3, supAdv⟩ bankEstaten).2.1 =
      (.ok false, (GenPhy.config_advert ⟨bankBus, 3, supAdv⟩ bankEstaten).2.1,
        []) :=
  C6_config_advert_idempotent
    (show GenPhy.config_advert ⟨bankBus, 3, supAdv⟩ bankEstaten =
        (.ok true,
          (GenPhy.config_advert ⟨bankBus, 3, supAdv⟩ bankEstaten).2.1,
          [(3, Mii.Advertise, 0x100), (3, Mii.Ctrl1000, 0x200)])
      from rfl)

/-- C7 counterexample to the claim as stated: on a bank whose BMSR never
shows ESTATEN, the delegated `config_aneg` fails, but `configure` does not
return that error to its caller — the source unwraps it, so `configure`
panics (modelled `none`) instead of failing with the error value. -/
theorem C7_counterexample :
    Dp83867Phy.config ⟨⟨bankBus, 3, supDefault⟩, confPlain⟩ bankZero = none ∧
    ((⟨⟨bankBus, 3, supDefault⟩, confPlain⟩ :
        Dp83867Phy (Nat → Nat)).genphy.config_aneg
      ((⟨⟨bankBus, 3, supDefault⟩, confPlain⟩ :
        Dp83867Phy (Nat → Nat)).configPreAneg bankZero).1).1 =
      .error "Bad BMSR Setting" :=
  ⟨rfl, rfl⟩

/-- C7 (amended): the vendor `configure` delegates to the generic engine's
`config_aneg` as its final step, and that call's failure is fatal: whenever
the delegated `config_aneg` fails with an error, `configure` panics via
`unwrap` (modelled: it yields no result) rather than returning the error
or succeeding — link bring-up is left failed. -/
theorem C7_config_aneg_failure_fatal {σ : Type} (p : Dp83867Phy σ) (s : σ)
    (m : String)
    (h : (p.genphy.config_aneg (p.configPreAneg s).1).1 = .error m) :
    Dp83867Phy.config p s = none := by
  simp only [Dp83867Phy.config]
  rcases hca : p.genphy.config_aneg (p.configPreAneg s).1 with ⟨r, s2, l2⟩
  rcases r with msg | u
  · rfl
  · rw [hca] at h
    exact Except.noConfusion h

/-- C7 witness: a concrete engine and bank on which the delegated
`config_aneg` fails with the capability-mismatch error. -/
theorem C7_witness :
    Dp83867Phy.config ⟨⟨bankBus, 5, supDefault⟩, confPlain⟩ bankZero = none :=
  C7_config_aneg_failure_fatal ⟨⟨bankBus, 5, supDefault⟩, confPlain⟩ bankZero
    "Bad BMSR Setting" rfl

/-- C8 counterexample to the claim as stated: the claimed 17th step,
0.00 ns, has no 4-bit code in the RX/TX delay-control table — no code's
documented decoding is 0 quarter-ns. -/
theorem C8_counterexample : rgmiiEncodableQuarterNs 0 = false := by decide

/-- C8 (amended): for each of the 16 defined discrete delay steps
(0.25 ns … 4.00 ns in 0.25 ns increments, i.e. 1 … 16 quarter-ns) there is
a 4-bit code in the delay-control table whose documented decoding equals
that value, and for every 4-bit code, encoding the code's decoded value
yields the same code back (the round-trip is the identity on the table). -/
theorem C8_delay_roundtrip :
    ((List.range 16).all fun q => rgmiiEncodableQuarterNs (q + 1)) = true ∧
    ((List.range 16).all fun c =>
      (rgmiiDelayDecodeQuarterNs c).any fun q =>
        rgmiiDelayEncodeQuarterNs q == some c) = true := by
  decide

end ZynqmpHal
